import Mathlib

/-!
# Google OIDC identity provider resource

A shallow embedding of `provider/resource_keycloak_oidc_google_identity_provider.go`:
the attribute schema of the resource, the extraction of an identity provider
record from the resource data (`getOidcGoogleIdentityProviderFromData`) and the
projection of a record back into the resource data
(`setOidcGoogleIdentityProviderData`).

The collaborators the file calls but does not define (the generic identity
provider extractor and projector, the version threshold, the merge routine and
the version order) are parameters of the embedding.
-/

namespace Keycloak

/-! ## Attribute schema (lines 12-83) -/

/-- The two attribute types the Google schema uses. -/
inductive ValueType where
  | TypeString
  | TypeBool
deriving DecidableEq, Repr

/-- A schema default: a string or a bool, according to the attribute type. -/
inductive DefaultValue where
  | str (s : String)
  | bool (b : Bool)
deriving DecidableEq, Repr

/-- The descriptor of one attribute (the description text is left out). -/
structure Schema where
  Type_ : ValueType
  Optional : Bool := false
  Required : Bool := false
  Computed : Bool := false
  Sensitive : Bool := false
  Default : Option DefaultValue := none
deriving DecidableEq, Repr

/-- The attribute set `oidcGoogleSchema` of lines 12-83, in source order. -/
def oidcGoogleSchema : List (String × Schema) :=
  [ ("alias", { Type_ := .TypeString, Optional := true, Computed := true }),
    ("display_name", { Type_ := .TypeString, Optional := true, Computed := true }),
    ("provider_id", { Type_ := .TypeString, Optional := true, Default := some (.str "google") }),
    ("client_id", { Type_ := .TypeString, Required := true }),
    ("client_secret", { Type_ := .TypeString, Required := true, Sensitive := true }),
    ("hosted_domain", { Type_ := .TypeString, Optional := true }),
    ("use_user_ip_param", { Type_ := .TypeBool, Optional := true, Default := some (.bool false) }),
    ("request_refresh_token", { Type_ := .TypeBool, Optional := true, Default := some (.bool false) }),
    ("default_scopes",
      { Type_ := .TypeString, Optional := true, Default := some (.str "openid profile email") }),
    ("accepts_prompt_none_forward_from_client",
      { Type_ := .TypeBool, Optional := true, Default := some (.bool false) }),
    ("disable_user_info", { Type_ := .TypeBool, Optional := true, Default := some (.bool false) }),
    ("hide_on_login_page", { Type_ := .TypeBool, Optional := true, Default := some (.bool false) }) ]

/-- The value `Get` yields for a string attribute that is not set: the schema
default when there is one, the zero value otherwise. -/
def schemaDefaultString (key : String) : String :=
  match (oidcGoogleSchema.lookup key).bind Schema.Default with
  | some (.str s) => s
  | _ => ""

/-- The value `Get` yields for a bool attribute that is not set. -/
def schemaDefaultBool (key : String) : Bool :=
  match (oidcGoogleSchema.lookup key).bind Schema.Default with
  | some (.bool b) => b
  | _ => false

/-! ## Resource data

`schema.ResourceData` holds typed attribute values under string keys. The
schema fixes the type of every key, so string and bool attributes are kept in
two stores; `Set` puts the new entry in front, `Get` reads the first entry of
the key, so the front of a store is also the record of the writes made. -/

/-- The attribute values of one resource instance. -/
structure ResourceData where
  strings : List (String × String)
  bools : List (String × Bool)
deriving DecidableEq, Repr

namespace ResourceData

/-- `data.Get(key).(string)`: the value set, else the schema default. -/
def GetString (d : ResourceData) (key : String) : String :=
  match d.strings.lookup key with
  | some s => s
  | none => schemaDefaultString key

/-- `data.Get(key).(bool)`: the value set, else the schema default. -/
def GetBool (d : ResourceData) (key : String) : Bool :=
  match d.bools.lookup key with
  | some b => b
  | none => schemaDefaultBool key

/-- `data.GetOk(key)` on a string attribute: the value, and whether the key has
been set to a value other than the zero value. -/
def GetOkString (d : ResourceData) (key : String) : String × Bool :=
  match d.strings.lookup key with
  | some s => (s, s != "")
  | none => (schemaDefaultString key, false)

/-- `data.Set(key, value)` with a string value. -/
def SetString (d : ResourceData) (key : String) (value : String) : ResourceData :=
  { d with strings := (key, value) :: d.strings }

/-- `data.Set(key, value)` with a bool value. -/
def SetBool (d : ResourceData) (key : String) (value : Bool) : ResourceData :=
  { d with bools := (key, value) :: d.bools }

/-- The keys written between the state `before` and the later state `after`:
the keys of the entries `after` holds in front of those of `before`. -/
def writtenKeys (after before : ResourceData) : List String :=
  (after.strings.take (after.strings.length - before.strings.length)).map Prod.fst ++
  (after.bools.take (after.bools.length - before.bools.length)).map Prod.fst

end ResourceData

/-! ## The external record -/

/-- Modelled from the spec: `types.KeycloakBoolQuoted`, whose declaration is in
package `keycloak/types`. The source converts a `bool` into it and assigns
the constant `true` to it, so it is a type over `bool`; the spec calls it the
wire boolean, "a boolean value encoded as the literal string "true"/"false"". -/
structure KeycloakBoolQuoted where
  val : Bool
deriving DecidableEq, Repr

/-- Modelled from the spec: the JSON text of a wire boolean, the quoted literal
`"true"` or `"false"` (its `MarshalJSON` is in package `keycloak/types`). -/
def KeycloakBoolQuoted.MarshalJSON (b : KeycloakBoolQuoted) : String :=
  if b.val then "\"true\"" else "\"false\""

/-- The JSON text of a native `bool`, for comparison. -/
def nativeBoolJSON (b : Bool) : String :=
  if b then "true" else "false"

/-- Modelled from the spec: `keycloak.IdentityProviderConfig`, the variant
config sub-record, with the ten fields this file assigns and reads (its
declaration is in package `keycloak`). -/
structure IdentityProviderConfig where
  ClientId : String
  ClientSecret : String
  HostedDomain : String
  UserIp : KeycloakBoolQuoted
  OfflineAccess : KeycloakBoolQuoted
  DefaultScope : String
  AcceptsPromptNoneForwFrmClt : KeycloakBoolQuoted
  UseJwksUrl : KeycloakBoolQuoted
  DisableUserInfo : KeycloakBoolQuoted
  HideOnLoginPage : KeycloakBoolQuoted
deriving DecidableEq, Repr

/-- Modelled from the spec: `keycloak.IdentityProvider`, the external record.
`ProviderId`, `Alias` and `Config` are the fields this file uses; `Config` is a
pointer (line 103 takes an address, line 122 assigns it), so it may be nil.
`DisplayName` and `Enabled` stand for the generic sub-record of the spec. -/
structure IdentityProvider where
  ProviderId : String
  Alias : String
  DisplayName : String
  Enabled : Bool
  Config : Option IdentityProviderConfig
deriving DecidableEq, Repr

/-- A Go `error` value. -/
structure GoError where
  msg : String
deriving DecidableEq, Repr

/-- A run that does not complete: the dereference of a nil pointer. -/
inductive Fault where
  | nilDereference
deriving DecidableEq, Repr

/-! ## Collaborators -/

/-- The parts of the repository this file calls and does not define, over a
type `V` of versions: the generic extractor and projector of
`resource_keycloak_identity_provider.go` and the threshold
`keycloak.Version_26.AsVersion()`. -/
structure Collaborators (V : Type) where
  getIdentityProviderFromData : ResourceData → V → IdentityProvider × IdentityProviderConfig
  setIdentityProviderData : ResourceData → IdentityProvider → V → ResourceData
  Version_26 : V

/-- `v.LessThan(o)` of go-version: versions are totally ordered. -/
def LessThan {V : Type} [LinearOrder V] (v o : V) : Bool :=
  decide (v < o)

/-- The type of `mergo.Merge(dst, src)` at `*IdentityProviderConfig`: the
destination after the call, and the error returned. -/
abbrev MergeFn := IdentityProviderConfig → IdentityProviderConfig →
  IdentityProviderConfig × Option GoError

/-- Merge of one field without override: the destination is assigned the
source when the destination is the zero value and the source is not. -/
def mergeField {α : Type} [DecidableEq α] (zero dst src : α) : α :=
  if dst = zero ∧ src ≠ zero then src else dst

/-- Modelled from the spec: `mergo.Merge` without options on two records of
the same type, the non-destructive merge of section 4.2 step 4 ("any field
already populated is left untouched; only fields left at their zero value are
filled from the default record"). It reports no error on such records. -/
def mergoMerge : MergeFn := fun dst src =>
  ({ ClientId := mergeField "" dst.ClientId src.ClientId,
     ClientSecret := mergeField "" dst.ClientSecret src.ClientSecret,
     HostedDomain := mergeField "" dst.HostedDomain src.HostedDomain,
     UserIp := mergeField ⟨false⟩ dst.UserIp src.UserIp,
     OfflineAccess := mergeField ⟨false⟩ dst.OfflineAccess src.OfflineAccess,
     DefaultScope := mergeField "" dst.DefaultScope src.DefaultScope,
     AcceptsPromptNoneForwFrmClt :=
       mergeField ⟨false⟩ dst.AcceptsPromptNoneForwFrmClt src.AcceptsPromptNoneForwFrmClt,
     UseJwksUrl := mergeField ⟨false⟩ dst.UseJwksUrl src.UseJwksUrl,
     DisableUserInfo := mergeField ⟨false⟩ dst.DisableUserInfo src.DisableUserInfo,
     HideOnLoginPage := mergeField ⟨false⟩ dst.HideOnLoginPage src.HideOnLoginPage },
   none)

/-! ## The two functions of the file -/

/-- The variant config built from the resource data (lines 103-116). -/
def googleOidcIdentityProviderConfig (data : ResourceData) : IdentityProviderConfig :=
  { ClientId := data.GetString "client_id",
    ClientSecret := data.GetString "client_secret",
    HostedDomain := data.GetString "hosted_domain",
    UserIp := ⟨data.GetBool "use_user_ip_param"⟩,
    OfflineAccess := ⟨data.GetBool "request_refresh_token"⟩,
    DefaultScope := data.GetString "default_scopes",
    AcceptsPromptNoneForwFrmClt := ⟨data.GetBool "accepts_prompt_none_forward_from_client"⟩,
    UseJwksUrl := ⟨true⟩,
    DisableUserInfo := ⟨data.GetBool "disable_user_info"⟩,
    HideOnLoginPage := ⟨data.GetBool "hide_on_login_page"⟩ }

/-- `getOidcGoogleIdentityProviderFromData` (lines 92-125). The result is the
pair the Go function returns: the record (nil when absent) and the error. -/
def getOidcGoogleIdentityProviderFromData {V : Type} (Merge : MergeFn) (c : Collaborators V)
    (data : ResourceData) (keycloakVersion : V) : Option IdentityProvider × Option GoError :=
  let (rec0, defaultConfig) := c.getIdentityProviderFromData data keycloakVersion
  let rec1 := { rec0 with ProviderId := data.GetString "provider_id" }
  let (aliasRaw, ok) := data.GetOkString "alias"
  let rec2 := if ok then { rec1 with Alias := aliasRaw } else { rec1 with Alias := "google" }
  let (merged, err) := Merge (googleOidcIdentityProviderConfig data) defaultConfig
  match err with
  | some e => (none, some e)
  | none => (some { rec2 with Config := some merged }, none)

/-- `setOidcGoogleIdentityProviderData` (lines 127-145). A run either stops at
the dereference of a nil `Config`, or completes with the resource data after
the writes and the error returned. -/
def setOidcGoogleIdentityProviderData {V : Type} [LinearOrder V] (c : Collaborators V)
    (data : ResourceData) (identityProvider : IdentityProvider) (keycloakVersion : V) :
    Except Fault (ResourceData × Option GoError) :=
  let data := c.setIdentityProviderData data identityProvider keycloakVersion
  let data := data.SetString "provider_id" identityProvider.ProviderId
  match identityProvider.Config with
  | none => .error .nilDereference
  | some Config =>
    let data := data.SetString "client_id" Config.ClientId
    let data := data.SetString "hosted_domain" Config.HostedDomain
    let data := data.SetBool "use_user_ip_param" Config.UserIp.val
    let data := data.SetBool "request_refresh_token" Config.OfflineAccess.val
    let data := data.SetString "default_scopes" Config.DefaultScope
    let data := data.SetBool "accepts_prompt_none_forward_from_client"
      Config.AcceptsPromptNoneForwFrmClt.val
    let data := data.SetBool "disable_user_info" Config.DisableUserInfo.val
    if LessThan keycloakVersion c.Version_26 then
      let data := data.SetBool "hide_on_login_page" Config.HideOnLoginPage.val
      .ok (data, none)
    else
      .ok (data, none)

/-! ## Predicates and sample inputs used in the statements -/

/-- Every attribute that feeds the variant config is populated, that is, holds
a value other than the zero value of its type. -/
def AllPopulated (d : ResourceData) : Prop :=
  d.GetString "client_id" ≠ "" ∧ d.GetString "client_secret" ≠ "" ∧
  d.GetString "hosted_domain" ≠ "" ∧ d.GetBool "use_user_ip_param" = true ∧
  d.GetBool "request_refresh_token" = true ∧ d.GetString "default_scopes" ≠ "" ∧
  d.GetBool "accepts_prompt_none_forward_from_client" = true ∧
  d.GetBool "disable_user_info" = true ∧ d.GetBool "hide_on_login_page" = true

instance (d : ResourceData) : Decidable (AllPopulated d) := by
  unfold AllPopulated
  infer_instance

/-- The outcome of the non-destructive merge on one field: a populated
declared value is kept, a zero declared value gives way to the default, and a
field that is zero in both is zero. -/
def MergedFrom {α : Type} (zero declared dflt merged : α) : Prop :=
  (declared ≠ zero → merged = declared) ∧ (declared = zero → merged = dflt) ∧
  (declared = zero → dflt = zero → merged = zero)

instance {α : Type} [DecidableEq α] (zero declared dflt merged : α) :
    Decidable (MergedFrom zero declared dflt merged) := by
  unfold MergedFrom
  infer_instance

/-- A default config record that sets every field. -/
def exampleDefaultConfig : IdentityProviderConfig :=
  { ClientId := "default-id", ClientSecret := "default-secret", HostedDomain := "default.example",
    UserIp := ⟨true⟩, OfflineAccess := ⟨true⟩, DefaultScope := "openid",
    AcceptsPromptNoneForwFrmClt := ⟨true⟩, UseJwksUrl := ⟨true⟩, DisableUserInfo := ⟨true⟩,
    HideOnLoginPage := ⟨true⟩ }

/-- Sample collaborators over versions numbered by their major release: the
generic extractor reads the display name and returns `exampleDefaultConfig`,
the generic projector writes the alias and the login page flag. -/
def exampleCollaborators : Collaborators Nat :=
  { getIdentityProviderFromData := fun d _ =>
      ({ ProviderId := "", Alias := "", DisplayName := d.GetString "display_name",
         Enabled := true, Config := none }, exampleDefaultConfig),
    setIdentityProviderData := fun d ip _ =>
      (d.SetString "alias" ip.Alias).SetBool "hide_on_login_page" true,
    Version_26 := 26 }

/-- A declared document with every attribute set to a non-zero value. -/
def exampleData : ResourceData :=
  { strings := [("alias", "corp-google"), ("provider_id", "google"), ("client_id", "id-1"),
      ("client_secret", "s3cret"), ("hosted_domain", "example.org"),
      ("default_scopes", "openid email")],
    bools := [("use_user_ip_param", true), ("request_refresh_token", true),
      ("accepts_prompt_none_forward_from_client", true), ("disable_user_info", true),
      ("hide_on_login_page", true)] }

/-- A declared document that sets the required attributes only. -/
def exampleMinimalData : ResourceData :=
  { strings := [("client_id", "id-1"), ("client_secret", "s3cret")], bools := [] }

/-- An external record with a variant config. -/
def exampleRecord : IdentityProvider :=
  { ProviderId := "google", Alias := "google", DisplayName := "Google", Enabled := true,
    Config := some { exampleDefaultConfig with HideOnLoginPage := ⟨false⟩ } }

/-- A variant config in which every field is the zero value. -/
def exampleZeroConfig : IdentityProviderConfig :=
  { ClientId := "", ClientSecret := "", HostedDomain := "", UserIp := ⟨false⟩,
    OfflineAccess := ⟨false⟩, DefaultScope := "", AcceptsPromptNoneForwFrmClt := ⟨false⟩,
    UseJwksUrl := ⟨false⟩, DisableUserInfo := ⟨false⟩, HideOnLoginPage := ⟨false⟩ }

/-- An external record whose variant config holds zero values only. -/
def exampleZeroRecord : IdentityProvider :=
  { ProviderId := "", Alias := "", DisplayName := "", Enabled := false,
    Config := some exampleZeroConfig }

/-- An external record without a variant config (a nil `Config`). -/
def exampleRecordWithoutConfig : IdentityProvider :=
  { ProviderId := "google", Alias := "google", DisplayName := "Google", Enabled := true,
    Config := none }

/-- A merge routine that reports an error. -/
def failingMerge : MergeFn := fun dst _ => (dst, some ⟨"src and dst must be of same type"⟩)

end Keycloak

namespace Keycloak

/-! ## Reading and writing resource data -/

namespace ResourceData

theorem GetString_SetString (d : ResourceData) (key value : String) :
    (d.SetString key value).GetString key = value := by
  simp [GetString, SetString, List.lookup]

theorem GetString_SetString_of_ne (d : ResourceData) (key other value : String)
    (h : other ≠ key) : (d.SetString key value).GetString other = d.GetString other := by
  have hb : (other == key) = false := by simpa using h
  simp [GetString, SetString, List.lookup, hb]

theorem GetString_SetBool (d : ResourceData) (key other : String) (value : Bool) :
    (d.SetBool key value).GetString other = d.GetString other := rfl

theorem GetBool_SetBool (d : ResourceData) (key : String) (value : Bool) :
    (d.SetBool key value).GetBool key = value := by
  simp [GetBool, SetBool, List.lookup]

theorem GetBool_SetBool_of_ne (d : ResourceData) (key other : String) (value : Bool)
    (h : other ≠ key) : (d.SetBool key value).GetBool other = d.GetBool other := by
  have hb : (other == key) = false := by simpa using h
  simp [GetBool, SetBool, List.lookup, hb]

theorem GetBool_SetString (d : ResourceData) (key other value : String) :
    (d.SetString key value).GetBool other = d.GetBool other := rfl

end ResourceData

/-! ## The shape of the two results -/

/-- With `mergoMerge` the extraction returns a record and no error; the record
is the base record with the provider id, the alias and the merged config. -/
theorem getOidcGoogleIdentityProviderFromData_mergo {V : Type} (c : Collaborators V)
    (D : ResourceData) (v : V) :
    getOidcGoogleIdentityProviderFromData mergoMerge c D v =
      (some { ProviderId := D.GetString "provider_id",
              Alias := if (D.GetOkString "alias").2 then (D.GetOkString "alias").1 else "google",
              DisplayName := (c.getIdentityProviderFromData D v).1.DisplayName,
              Enabled := (c.getIdentityProviderFromData D v).1.Enabled,
              Config := some (mergoMerge (googleOidcIdentityProviderConfig D)
                (c.getIdentityProviderFromData D v).2).1 }, none) := by
  cases h : (D.GetOkString "alias").2 <;>
    simp [getOidcGoogleIdentityProviderFromData, mergoMerge, h]

/-- On a record with a variant config the projection completes without error,
and its writes stand in front of the data left by the generic projector. -/
theorem setOidcGoogleIdentityProviderData_some {V : Type} [LinearOrder V] (c : Collaborators V)
    (out : ResourceData) (ip : IdentityProvider) (cfg : IdentityProviderConfig) (v : V)
    (h : ip.Config = some cfg) :
    ∃ out', setOidcGoogleIdentityProviderData c out ip v = .ok (out', none) ∧
      out'.strings = [("default_scopes", cfg.DefaultScope), ("hosted_domain", cfg.HostedDomain),
        ("client_id", cfg.ClientId), ("provider_id", ip.ProviderId)] ++
        (c.setIdentityProviderData out ip v).strings ∧
      out'.bools = (if v < c.Version_26 then [("hide_on_login_page", cfg.HideOnLoginPage.val)]
          else []) ++
        [("disable_user_info", cfg.DisableUserInfo.val),
         ("accepts_prompt_none_forward_from_client", cfg.AcceptsPromptNoneForwFrmClt.val),
         ("request_refresh_token", cfg.OfflineAccess.val),
         ("use_user_ip_param", cfg.UserIp.val)] ++
        (c.setIdentityProviderData out ip v).bools := by
  by_cases hv : v < c.Version_26 <;>
    simp [setOidcGoogleIdentityProviderData, h, LessThan, hv, ResourceData.SetString,
      ResourceData.SetBool]

/-! ## The merge of one field -/

theorem mergeField_of_ne {α : Type} [DecidableEq α] (zero dst src : α) (h : dst ≠ zero) :
    mergeField zero dst src = dst := by
  simp [mergeField, h]

theorem mergeField_zero {α : Type} [DecidableEq α] (zero src : α) :
    mergeField zero zero src = src := by
  by_cases h : src = zero <;> simp [mergeField, h]

theorem mergedFrom_mergeField {α : Type} [DecidableEq α] (zero dst src : α) :
    MergedFrom zero dst src (mergeField zero dst src) := by
  refine ⟨mergeField_of_ne zero dst src, ?_, ?_⟩
  · intro h
    rw [h, mergeField_zero]
  · intro h h'
    rw [h, mergeField_zero, h']

/-- What the document holds after the projection of a record with a variant
config: each projected attribute reads as the record's field. -/
theorem setOidcGoogleIdentityProviderData_reads {V : Type} [LinearOrder V] (c : Collaborators V)
    (out : ResourceData) (ip : IdentityProvider) (cfg : IdentityProviderConfig) (v : V)
    (h : ip.Config = some cfg) :
    ∃ out', setOidcGoogleIdentityProviderData c out ip v = .ok (out', none) ∧
      out'.GetString "provider_id" = ip.ProviderId ∧
      out'.GetString "client_id" = cfg.ClientId ∧
      out'.GetString "hosted_domain" = cfg.HostedDomain ∧
      out'.GetBool "use_user_ip_param" = cfg.UserIp.val ∧
      out'.GetBool "request_refresh_token" = cfg.OfflineAccess.val ∧
      out'.GetString "default_scopes" = cfg.DefaultScope ∧
      out'.GetBool "accepts_prompt_none_forward_from_client" =
        cfg.AcceptsPromptNoneForwFrmClt.val ∧
      out'.GetBool "disable_user_info" = cfg.DisableUserInfo.val ∧
      (v < c.Version_26 → out'.GetBool "hide_on_login_page" = cfg.HideOnLoginPage.val) := by
  obtain ⟨out', hset, hs, hb⟩ := setOidcGoogleIdentityProviderData_some c out ip cfg v h
  refine ⟨out', hset, ?_⟩
  by_cases hv : v < c.Version_26 <;>
    simp [ResourceData.GetString, ResourceData.GetBool, hs, hb, hv, List.lookup]

/-! ## Round trip -/

/-- C1: for a declared document with all fields populated, any collaborators
(so any base record and default config record) and any live version, the
extraction returns a record, the projection of that record completes, and the
document then holds the declared value of provider_id, client_id,
hosted_domain, use_user_ip_param, request_refresh_token, default_scopes,
accepts_prompt_none_forward_from_client and disable_user_info, and before
version 26 also of hide_on_login_page. -/
theorem round_trip_extract_then_project {V : Type} [LinearOrder V] (c : Collaborators V)
    (D out : ResourceData) (v : V) (hD : AllPopulated D) :
    ∃ r out', getOidcGoogleIdentityProviderFromData mergoMerge c D v = (some r, none) ∧
      setOidcGoogleIdentityProviderData c out r v = .ok (out', none) ∧
      out'.GetString "provider_id" = D.GetString "provider_id" ∧
      out'.GetString "client_id" = D.GetString "client_id" ∧
      out'.GetString "hosted_domain" = D.GetString "hosted_domain" ∧
      out'.GetBool "use_user_ip_param" = D.GetBool "use_user_ip_param" ∧
      out'.GetBool "request_refresh_token" = D.GetBool "request_refresh_token" ∧
      out'.GetString "default_scopes" = D.GetString "default_scopes" ∧
      out'.GetBool "accepts_prompt_none_forward_from_client" =
        D.GetBool "accepts_prompt_none_forward_from_client" ∧
      out'.GetBool "disable_user_info" = D.GetBool "disable_user_info" ∧
      (v < c.Version_26 → out'.GetBool "hide_on_login_page" = D.GetBool "hide_on_login_page") := by
  obtain ⟨h1, _, h3, h4, h5, h6, h7, h8, h9⟩ := hD
  obtain ⟨out', hset, hr⟩ := setOidcGoogleIdentityProviderData_reads c out _ _ v
    (rfl : ({ ProviderId := D.GetString "provider_id",
              Alias := if (D.GetOkString "alias").2 then (D.GetOkString "alias").1 else "google",
              DisplayName := (c.getIdentityProviderFromData D v).1.DisplayName,
              Enabled := (c.getIdentityProviderFromData D v).1.Enabled,
              Config := some (mergoMerge (googleOidcIdentityProviderConfig D)
                (c.getIdentityProviderFromData D v).2).1 } : IdentityProvider).Config = _)
  refine ⟨_, out', getOidcGoogleIdentityProviderFromData_mergo c D v, hset, ?_⟩
  simpa [mergoMerge, googleOidcIdentityProviderConfig, mergeField, h1, h3, h4, h5, h6, h7, h8, h9]
    using hr

/-- The round trip at `exampleData`, version 25 (before the threshold 26): the
document is populated, and after extraction and projection it holds the
declared client id and login page flag. -/
theorem round_trip_extract_then_project_witness :
    AllPopulated exampleData ∧
    ∃ r out', getOidcGoogleIdentityProviderFromData mergoMerge exampleCollaborators exampleData 25
        = (some r, none) ∧
      setOidcGoogleIdentityProviderData exampleCollaborators exampleData r 25 = .ok (out', none) ∧
      out'.GetString "client_id" = "id-1" ∧ out'.GetBool "hide_on_login_page" = true := by
  have hD : AllPopulated exampleData := by decide
  obtain ⟨r, out', hget, hset, _, hid, _, _, _, _, _, _, hhide⟩ :=
    round_trip_extract_then_project exampleCollaborators exampleData exampleData 25 hD
  exact ⟨hD, r, out', hget, hset, hid.trans (by decide), (hhide (by decide)).trans (by decide)⟩

/-! ## Non-destructive merge -/

/-- C2: for every declared document and every default config record (the one
the generic extractor returns), the extraction returns a record with a variant
config in which every field is merged non-destructively: a declared value
other than the zero value is kept, a zero declared value is replaced by the
default record's value, and a field zero in both is zero. So a declared
use_user_ip_param of true with an unset default gives UserIp true. -/
theorem merge_is_non_destructive {V : Type} (c : Collaborators V) (D : ResourceData) (v : V) :
    ∃ r cfg, getOidcGoogleIdentityProviderFromData mergoMerge c D v = (some r, none) ∧
      r.Config = some cfg ∧
      MergedFrom "" (D.GetString "client_id")
        (c.getIdentityProviderFromData D v).2.ClientId cfg.ClientId ∧
      MergedFrom "" (D.GetString "client_secret")
        (c.getIdentityProviderFromData D v).2.ClientSecret cfg.ClientSecret ∧
      MergedFrom "" (D.GetString "hosted_domain")
        (c.getIdentityProviderFromData D v).2.HostedDomain cfg.HostedDomain ∧
      MergedFrom ⟨false⟩ ⟨D.GetBool "use_user_ip_param"⟩
        (c.getIdentityProviderFromData D v).2.UserIp cfg.UserIp ∧
      MergedFrom ⟨false⟩ ⟨D.GetBool "request_refresh_token"⟩
        (c.getIdentityProviderFromData D v).2.OfflineAccess cfg.OfflineAccess ∧
      MergedFrom "" (D.GetString "default_scopes")
        (c.getIdentityProviderFromData D v).2.DefaultScope cfg.DefaultScope ∧
      MergedFrom ⟨false⟩ ⟨D.GetBool "accepts_prompt_none_forward_from_client"⟩
        (c.getIdentityProviderFromData D v).2.AcceptsPromptNoneForwFrmClt
        cfg.AcceptsPromptNoneForwFrmClt ∧
      MergedFrom ⟨false⟩ ⟨true⟩ (c.getIdentityProviderFromData D v).2.UseJwksUrl cfg.UseJwksUrl ∧
      MergedFrom ⟨false⟩ ⟨D.GetBool "disable_user_info"⟩
        (c.getIdentityProviderFromData D v).2.DisableUserInfo cfg.DisableUserInfo ∧
      MergedFrom ⟨false⟩ ⟨D.GetBool "hide_on_login_page"⟩
        (c.getIdentityProviderFromData D v).2.HideOnLoginPage cfg.HideOnLoginPage ∧
      (D.GetBool "use_user_ip_param" = true →
        (c.getIdentityProviderFromData D v).2.UserIp = ⟨false⟩ → cfg.UserIp = ⟨true⟩) := by
  refine ⟨_, _, getOidcGoogleIdentityProviderFromData_mergo c D v, rfl,
    mergedFrom_mergeField _ _ _, mergedFrom_mergeField _ _ _, mergedFrom_mergeField _ _ _,
    mergedFrom_mergeField _ _ _, mergedFrom_mergeField _ _ _, mergedFrom_mergeField _ _ _,
    mergedFrom_mergeField _ _ _, ?_, mergedFrom_mergeField _ _ _,
    mergedFrom_mergeField _ _ _, ?_⟩
  · simp [MergedFrom, mergoMerge, googleOidcIdentityProviderConfig, mergeField]
  · intro h _
    simp [mergoMerge, googleOidcIdentityProviderConfig, mergeField, h]

/-- The merge at `exampleMinimalData`, whose unset hosted_domain and
use_user_ip_param are filled from `exampleDefaultConfig` while the declared
client id is kept. -/
theorem merge_is_non_destructive_witness :
    ∃ r cfg, getOidcGoogleIdentityProviderFromData mergoMerge exampleCollaborators
        exampleMinimalData 26 = (some r, none) ∧ r.Config = some cfg ∧
      cfg.ClientId = "id-1" ∧ cfg.HostedDomain = "default.example" ∧ cfg.UserIp = ⟨true⟩ := by
  obtain ⟨r, cfg, hget, hcfg, hid, _, hdom, hip, _⟩ :=
    merge_is_non_destructive exampleCollaborators exampleMinimalData 26
  exact ⟨r, cfg, hget, hcfg, (hid.1 (by decide)).trans (by decide),
    (hdom.2.1 (by decide)).trans (by decide), (hip.2.1 (by decide)).trans (by decide)⟩

/-! ## Version gate and frame of the projection -/

theorem take_append_length_sub {α : Type} (front rest : List α) :
    (front ++ rest).take ((front ++ rest).length - rest.length) = front := by
  simp [List.length_append]

/-- The keys the variant-specific writes of the projection add in front of the
data left by the generic projector. -/
theorem setOidcGoogleIdentityProviderData_writtenKeys {V : Type} [LinearOrder V]
    (c : Collaborators V) (out : ResourceData) (ip : IdentityProvider)
    (cfg : IdentityProviderConfig) (v : V) (h : ip.Config = some cfg) :
    ∃ out', setOidcGoogleIdentityProviderData c out ip v = .ok (out', none) ∧
      out'.writtenKeys (c.setIdentityProviderData out ip v) =
        ["default_scopes", "hosted_domain", "client_id", "provider_id"] ++
        (if v < c.Version_26 then ["hide_on_login_page"] else []) ++
        ["disable_user_info", "accepts_prompt_none_forward_from_client",
         "request_refresh_token", "use_user_ip_param"] ∧
      out'.strings.lookup "client_secret" =
        (c.setIdentityProviderData out ip v).strings.lookup "client_secret" ∧
      (c.Version_26 ≤ v → out'.bools.lookup "hide_on_login_page" =
        (c.setIdentityProviderData out ip v).bools.lookup "hide_on_login_page") := by
  obtain ⟨out', hset, hs, hb⟩ := setOidcGoogleIdentityProviderData_some c out ip cfg v h
  refine ⟨out', hset, ?_, ?_, ?_⟩
  · unfold ResourceData.writtenKeys
    rw [hs, hb, take_append_length_sub, take_append_length_sub]
    by_cases hv : v < c.Version_26 <;> simp [hv]
  · simp [hs, List.lookup]
  · intro hv
    simp [hb, not_lt.mpr hv, List.lookup]

/-- C3, as stated, fails: on `exampleRecordWithoutConfig` at version 25, which
is before the threshold 26, the projection stops at the dereference of the nil
`Config` (line 130), ahead of the gate of line 138, so no run completes with
hide_on_login_page written; "written exactly when the version is before 26"
does not hold for every external record. -/
theorem version_gate_on_record_without_config :
    LessThan 25 exampleCollaborators.Version_26 = true ∧
    setOidcGoogleIdentityProviderData exampleCollaborators exampleData
      exampleRecordWithoutConfig 25 = .error .nilDereference ∧
    ¬ ∀ (ip : IdentityProvider) (v : Nat), ∃ out' err,
      setOidcGoogleIdentityProviderData exampleCollaborators exampleData ip v = .ok (out', err) ∧
      ("hide_on_login_page" ∈
          out'.writtenKeys (exampleCollaborators.setIdentityProviderData exampleData ip v) ↔
        v < exampleCollaborators.Version_26) := by
  refine ⟨by decide, rfl, fun hall => ?_⟩
  obtain ⟨out', err, h, _⟩ := hall exampleRecordWithoutConfig 25
  simp [setOidcGoogleIdentityProviderData, exampleRecordWithoutConfig] at h

/-- C3, amended: the gate is false at version 26 and true at every version
before 26; and on every external record whose variant config is present and
every live version the projection completes and writes hide_on_login_page
exactly when the version is before 26, the value written being the config's
HideOnLoginPage; from version 26 on it leaves the entry of hide_on_login_page
as the generic projector set it. -/
theorem version_gate_hide_on_login_page {V : Type} [LinearOrder V] (c : Collaborators V)
    (out : ResourceData) (ip : IdentityProvider) (cfg : IdentityProviderConfig) (v : V)
    (h : ip.Config = some cfg) :
    LessThan c.Version_26 c.Version_26 = false ∧
    (∀ w, w < c.Version_26 → LessThan w c.Version_26 = true) ∧
    ∃ out', setOidcGoogleIdentityProviderData c out ip v = .ok (out', none) ∧
      ("hide_on_login_page" ∈ out'.writtenKeys (c.setIdentityProviderData out ip v) ↔
        v < c.Version_26) ∧
      (v < c.Version_26 → out'.GetBool "hide_on_login_page" = cfg.HideOnLoginPage.val) ∧
      (c.Version_26 ≤ v → out'.bools.lookup "hide_on_login_page" =
        (c.setIdentityProviderData out ip v).bools.lookup "hide_on_login_page") := by
  refine ⟨by simp [LessThan], fun w hw => by simp [LessThan, hw], ?_⟩
  obtain ⟨out', hset, hk, _, hkeep⟩ := setOidcGoogleIdentityProviderData_writtenKeys c out ip cfg v h
  obtain ⟨out'', hset', hr⟩ := setOidcGoogleIdentityProviderData_reads c out ip cfg v h
  have heq : out'' = out' := by
    have := hset'.symm.trans hset
    simpa using this
  subst heq
  refine ⟨out'', hset, ?_, hr.2.2.2.2.2.2.2.2, hkeep⟩
  rw [hk]
  by_cases hv : v < c.Version_26 <;> simp [hv]

/-- The gate at `exampleRecord`, whose HideOnLoginPage is false, over data in
which the generic projector sets hide_on_login_page to true: at version 25 the
flag is written and reads false. -/
theorem version_gate_hide_on_login_page_witness :
    ∃ out', setOidcGoogleIdentityProviderData exampleCollaborators exampleData exampleRecord 25
        = .ok (out', none) ∧
      "hide_on_login_page" ∈ out'.writtenKeys
        (exampleCollaborators.setIdentityProviderData exampleData exampleRecord 25) ∧
      out'.GetBool "hide_on_login_page" = false := by
  obtain ⟨_, _, out', hset, hw, hval, _⟩ :=
    version_gate_hide_on_login_page exampleCollaborators exampleData exampleRecord
      { exampleDefaultConfig with HideOnLoginPage := ⟨false⟩ } 25 rfl
  exact ⟨out', hset, hw.mpr (by decide), hval (by decide)⟩

/-- C4: on every external record (with its variant config), every live
version and every prior state of the document, the projection completes and
client_secret is not among the keys its variant-specific writes set: the
entry of client_secret is the one the generic projector left, whatever
ClientSecret the record carries, so when the generic projector keeps the
prior value the document holds the prior value after the projection. -/
theorem client_secret_never_projected {V : Type} [LinearOrder V] (c : Collaborators V)
    (out : ResourceData) (ip : IdentityProvider) (cfg : IdentityProviderConfig) (v : V)
    (h : ip.Config = some cfg) :
    ∃ out', setOidcGoogleIdentityProviderData c out ip v = .ok (out', none) ∧
      "client_secret" ∉ out'.writtenKeys (c.setIdentityProviderData out ip v) ∧
      out'.strings.lookup "client_secret" =
        (c.setIdentityProviderData out ip v).strings.lookup "client_secret" ∧
      out'.GetString "client_secret" =
        (c.setIdentityProviderData out ip v).GetString "client_secret" ∧
      ((c.setIdentityProviderData out ip v).GetString "client_secret" =
          out.GetString "client_secret" →
        out'.GetString "client_secret" = out.GetString "client_secret") := by
  obtain ⟨out', hset, hk, hkeep, _⟩ := setOidcGoogleIdentityProviderData_writtenKeys c out ip cfg v h
  have hget : out'.GetString "client_secret" =
      (c.setIdentityProviderData out ip v).GetString "client_secret" := by
    simp only [ResourceData.GetString, hkeep]
  refine ⟨out', hset, ?_, hkeep, hget, fun hg => hget.trans hg⟩
  rw [hk]
  by_cases hv : v < c.Version_26 <;> simp [hv]

/-- The frame at `exampleRecord`, whose ClientSecret is "default-secret": the
document still holds the declared secret after the projection. -/
theorem client_secret_never_projected_witness :
    ∃ out', setOidcGoogleIdentityProviderData exampleCollaborators exampleData exampleRecord 26
        = .ok (out', none) ∧
      out'.GetString "client_secret" = "s3cret" := by
  obtain ⟨out', hset, _, _, _, hprior⟩ :=
    client_secret_never_projected exampleCollaborators exampleData exampleRecord
      { exampleDefaultConfig with HideOnLoginPage := ⟨false⟩ } 26 rfl
  exact ⟨out', hset, (hprior (by decide)).trans (by decide)⟩

/-! ## Alias and default scope -/

/-- C5: for every declared document the extraction returns a record whose
Alias is the declared alias when alias is present (`GetOk` reports it set to a
value other than the zero value) and "google" otherwise; so a document with
alias unset yields "google", whatever its provider_id, "google" included. -/
theorem alias_resolution {V : Type} (c : Collaborators V) (D : ResourceData) (v : V) :
    ∃ r, getOidcGoogleIdentityProviderFromData mergoMerge c D v = (some r, none) ∧
      r.Alias = (if (D.GetOkString "alias").2 then (D.GetOkString "alias").1 else "google") ∧
      (∀ a, D.strings.lookup "alias" = some a → a ≠ "" → r.Alias = a) ∧
      (D.strings.lookup "alias" = none → r.Alias = "google") ∧
      (D.strings.lookup "alias" = none → D.GetString "provider_id" = "google" →
        r.Alias = "google") := by
  refine ⟨_, getOidcGoogleIdentityProviderFromData_mergo c D v, rfl, ?_, ?_, ?_⟩
  · intro a ha hne
    simp [ResourceData.GetOkString, ha, hne]
  · intro ha
    simp [ResourceData.GetOkString, ha]
  · intro ha _
    simp [ResourceData.GetOkString, ha]

/-- The alias at `exampleData` (alias declared) and at `exampleMinimalData`
(alias unset, provider_id left to its default "google"). -/
theorem alias_resolution_witness :
    (∃ r, getOidcGoogleIdentityProviderFromData mergoMerge exampleCollaborators exampleData 26
        = (some r, none) ∧ r.Alias = "corp-google") ∧
    (∃ r, getOidcGoogleIdentityProviderFromData mergoMerge exampleCollaborators
        exampleMinimalData 26 = (some r, none) ∧ r.Alias = "google") := by
  obtain ⟨r, hget, _, hset, _⟩ := alias_resolution exampleCollaborators exampleData 26
  obtain ⟨r', hget', _, _, _, hunset⟩ := alias_resolution exampleCollaborators exampleMinimalData 26
  exact ⟨⟨r, hget, hset "corp-google" (by decide) (by decide)⟩,
    ⟨r', hget', hunset (by decide) (by decide)⟩⟩

/-- C6: for every declared document in which default_scopes is unset, every
default config record and every live version, the extraction returns a record
whose config has DefaultScope "openid profile email". -/
theorem default_scope_injected {V : Type} (c : Collaborators V) (D : ResourceData) (v : V)
    (h : D.strings.lookup "default_scopes" = none) :
    ∃ r cfg, getOidcGoogleIdentityProviderFromData mergoMerge c D v = (some r, none) ∧
      r.Config = some cfg ∧ cfg.DefaultScope = "openid profile email" := by
  refine ⟨_, _, getOidcGoogleIdentityProviderFromData_mergo c D v, rfl, ?_⟩
  have hget : D.GetString "default_scopes" = "openid profile email" := by
    simp only [ResourceData.GetString, h]
    decide
  simp [mergoMerge, googleOidcIdentityProviderConfig, mergeField, hget]

/-- The default scope at `exampleMinimalData`, against `exampleDefaultConfig`,
whose DefaultScope is "openid". -/
theorem default_scope_injected_witness :
    exampleMinimalData.strings.lookup "default_scopes" = none ∧
    ∃ r cfg, getOidcGoogleIdentityProviderFromData mergoMerge exampleCollaborators
        exampleMinimalData 26 = (some r, none) ∧
      r.Config = some cfg ∧ cfg.DefaultScope = "openid profile email" :=
  ⟨by decide, default_scope_injected exampleCollaborators exampleMinimalData 26 (by decide)⟩

/-! ## Wire booleans -/

theorem KeycloakBoolQuoted.MarshalJSON_quoted (b : KeycloakBoolQuoted) :
    (b.MarshalJSON = "\"true\"" ∨ b.MarshalJSON = "\"false\"") ∧
      b.MarshalJSON ≠ nativeBoolJSON b.val := by
  rcases b with ⟨_ | _⟩ <;> decide

/-- C7: for every declared document the extraction returns a record in whose
config each boolean field (UserIp, OfflineAccess, AcceptsPromptNoneForwFrmClt,
DisableUserInfo, HideOnLoginPage, UseJwksUrl) is a wire boolean: its JSON text
is the quoted literal "true" or "false", and differs from the text of the
native boolean; UseJwksUrl is the quoted "true". -/
theorem wire_booleans_are_quoted {V : Type} (c : Collaborators V) (D : ResourceData) (v : V) :
    ∃ r cfg, getOidcGoogleIdentityProviderFromData mergoMerge c D v = (some r, none) ∧
      r.Config = some cfg ∧
      (∀ b ∈ [cfg.UserIp, cfg.OfflineAccess, cfg.AcceptsPromptNoneForwFrmClt,
          cfg.DisableUserInfo, cfg.HideOnLoginPage, cfg.UseJwksUrl],
        (b.MarshalJSON = "\"true\"" ∨ b.MarshalJSON = "\"false\"") ∧
          b.MarshalJSON ≠ nativeBoolJSON b.val) ∧
      cfg.UseJwksUrl.MarshalJSON = "\"true\"" := by
  refine ⟨_, _, getOidcGoogleIdentityProviderFromData_mergo c D v, rfl,
    fun b _ => KeycloakBoolQuoted.MarshalJSON_quoted b, ?_⟩
  simp [mergoMerge, googleOidcIdentityProviderConfig, mergeField, KeycloakBoolQuoted.MarshalJSON]

/-! ## Totality of the projection -/

/-- C8, as stated, fails: on `exampleRecordWithoutConfig` the
projection stops at the dereference of the nil `Config` (line 130) and
returns nothing, so it does not complete for every external record. -/
theorem projection_of_record_without_config_faults :
    setOidcGoogleIdentityProviderData exampleCollaborators exampleData
      exampleRecordWithoutConfig 26 = .error .nilDereference ∧
    ¬ ∀ (ip : IdentityProvider) (v : Nat), ∃ out' err,
      setOidcGoogleIdentityProviderData exampleCollaborators exampleData ip v = .ok (out', err) := by
  refine ⟨rfl, fun hall => ?_⟩
  obtain ⟨out', err, h⟩ := hall exampleRecordWithoutConfig 26
  simp [setOidcGoogleIdentityProviderData, exampleRecordWithoutConfig] at h

/-- C8, amended: on every external record whose variant config is present and
every live version, the projection completes and returns no error, and each
projected attribute reads as the record's field, so a zero field of the
record is written as the zero value. -/
theorem projection_total_with_config {V : Type} [LinearOrder V] (c : Collaborators V)
    (out : ResourceData) (ip : IdentityProvider) (cfg : IdentityProviderConfig) (v : V)
    (h : ip.Config = some cfg) :
    ∃ out', setOidcGoogleIdentityProviderData c out ip v = .ok (out', none) ∧
      out'.GetString "provider_id" = ip.ProviderId ∧
      out'.GetString "client_id" = cfg.ClientId ∧
      out'.GetString "hosted_domain" = cfg.HostedDomain ∧
      out'.GetBool "use_user_ip_param" = cfg.UserIp.val ∧
      out'.GetBool "request_refresh_token" = cfg.OfflineAccess.val ∧
      out'.GetString "default_scopes" = cfg.DefaultScope ∧
      out'.GetBool "accepts_prompt_none_forward_from_client" =
        cfg.AcceptsPromptNoneForwFrmClt.val ∧
      out'.GetBool "disable_user_info" = cfg.DisableUserInfo.val :=
  let ⟨out', hset, h1, h2, h3, h4, h5, h6, h7, h8, _⟩ :=
    setOidcGoogleIdentityProviderData_reads c out ip cfg v h
  ⟨out', hset, h1, h2, h3, h4, h5, h6, h7, h8⟩

/-- The projection of a record whose config holds zero values only, over
`exampleData`: it completes, and the document then holds the zero values. -/
theorem projection_total_with_config_witness :
    ∃ out', setOidcGoogleIdentityProviderData exampleCollaborators exampleData
        exampleZeroRecord 26
        = .ok (out', none) ∧
      out'.GetString "client_id" = "" ∧ out'.GetString "default_scopes" = "" ∧
      out'.GetBool "use_user_ip_param" = false := by
  obtain ⟨out', hset, _, h2, _, h4, _, h6, _⟩ :=
    projection_total_with_config exampleCollaborators exampleData
      exampleZeroRecord exampleZeroConfig 26 rfl
  exact ⟨out', hset, h2, h6, h4⟩

/-! ## Merge errors -/

/-- C9: for every merge routine, declared document and default config record:
when the merge reports an error the extraction returns that error and no
record; when it reports none the extraction returns no error and the base
record with the merged config attached; it never returns both a record and
an error. -/
theorem merge_error_is_atomic {V : Type} (Merge : MergeFn) (c : Collaborators V)
    (D : ResourceData) (v : V) :
    (∀ e, (Merge (googleOidcIdentityProviderConfig D) (c.getIdentityProviderFromData D v).2).2
        = some e →
      getOidcGoogleIdentityProviderFromData Merge c D v = (none, some e)) ∧
    ((Merge (googleOidcIdentityProviderConfig D) (c.getIdentityProviderFromData D v).2).2 = none →
      ∃ r, getOidcGoogleIdentityProviderFromData Merge c D v = (some r, none) ∧
        r.Config = some
          (Merge (googleOidcIdentityProviderConfig D) (c.getIdentityProviderFromData D v).2).1 ∧
        r.DisplayName = (c.getIdentityProviderFromData D v).1.DisplayName ∧
        r.Enabled = (c.getIdentityProviderFromData D v).1.Enabled) ∧
    ¬ ((getOidcGoogleIdentityProviderFromData Merge c D v).1.isSome = true ∧
       (getOidcGoogleIdentityProviderFromData Merge c D v).2.isSome = true) := by
  cases hm : (Merge (googleOidcIdentityProviderConfig D) (c.getIdentityProviderFromData D v).2).2
    with
  | none =>
    cases hok : (D.GetOkString "alias").2 <;>
      simp [getOidcGoogleIdentityProviderFromData, hm, hok]
  | some e =>
    simp [getOidcGoogleIdentityProviderFromData, hm]

/-- The extraction at `exampleData` with a merge that fails, and with
`mergoMerge`: the first returns the error alone, the second a record alone. -/
theorem merge_error_is_atomic_witness :
    getOidcGoogleIdentityProviderFromData failingMerge exampleCollaborators exampleData 26
      = (none, some ⟨"src and dst must be of same type"⟩) ∧
    ∃ r, getOidcGoogleIdentityProviderFromData mergoMerge exampleCollaborators exampleData 26
      = (some r, none) ∧ r.DisplayName = "" :=
  ⟨(merge_error_is_atomic failingMerge exampleCollaborators exampleData 26).1 _ rfl,
   let ⟨r, hget, _, hname, _⟩ :=
     (merge_error_is_atomic mergoMerge exampleCollaborators exampleData 26).2.1 rfl
   ⟨r, hget, hname.trans (by decide)⟩⟩

/-! ## Extraction does not consult the version -/

/-- C10: for every merge routine, declared document and two live versions at
which the generic extractor returns the same base record and default config
record, the extraction returns the same result (so the same ProviderId, Alias
and variant config); and at every live version, at or after 26 included, the
config's HideOnLoginPage is merged from the declared hide_on_login_page (true
when that is true) and UseJwksUrl is true. -/
theorem extraction_ignores_version {V : Type} (Merge : MergeFn) (c : Collaborators V)
    (D : ResourceData) (v1 v2 : V)
    (h : c.getIdentityProviderFromData D v1 = c.getIdentityProviderFromData D v2) :
    getOidcGoogleIdentityProviderFromData Merge c D v1 =
      getOidcGoogleIdentityProviderFromData Merge c D v2 ∧
    ∀ v, ∃ r cfg, getOidcGoogleIdentityProviderFromData mergoMerge c D v = (some r, none) ∧
      r.Config = some cfg ∧ cfg.UseJwksUrl = ⟨true⟩ ∧
      MergedFrom ⟨false⟩ ⟨D.GetBool "hide_on_login_page"⟩
        (c.getIdentityProviderFromData D v).2.HideOnLoginPage cfg.HideOnLoginPage ∧
      (D.GetBool "hide_on_login_page" = true → cfg.HideOnLoginPage = ⟨true⟩) := by
  refine ⟨by simp only [getOidcGoogleIdentityProviderFromData, h], fun v => ?_⟩
  refine ⟨_, _, getOidcGoogleIdentityProviderFromData_mergo c D v, rfl, ?_,
    mergedFrom_mergeField _ _ _, ?_⟩
  · simp [mergoMerge, googleOidcIdentityProviderConfig, mergeField]
  · intro hh
    simp [mergoMerge, googleOidcIdentityProviderConfig, mergeField, hh]

/-- The extraction at `exampleData` at versions 25 and 27, on either side of
the threshold: the results agree, and at 27 HideOnLoginPage is true. -/
theorem extraction_ignores_version_witness :
    getOidcGoogleIdentityProviderFromData mergoMerge exampleCollaborators exampleData 25 =
      getOidcGoogleIdentityProviderFromData mergoMerge exampleCollaborators exampleData 27 ∧
    ∃ r cfg, getOidcGoogleIdentityProviderFromData mergoMerge exampleCollaborators exampleData 27
        = (some r, none) ∧ r.Config = some cfg ∧ cfg.HideOnLoginPage = ⟨true⟩ :=
  let ⟨hsame, hall⟩ :=
    extraction_ignores_version mergoMerge exampleCollaborators exampleData 25 27 rfl
  let ⟨r, cfg, hget, hcfg, _, _, hhide⟩ := hall 27
  ⟨hsame, r, cfg, hget, hcfg, hhide (by decide)⟩

end Keycloak
